import Mathlib

set_option linter.unusedVariables false
set_option maxRecDepth 100000

/-!
Shallow embedding of `torchvision/models/quantization/resnet.py` from the
`vision` repository, together with proofs about the behaviour of its
weights registries, block adapters, fusion routine and factory functions.

Helpers that the file imports from elsewhere in the repository
(`_ovewrite_named_param`, `handle_legacy_interface`, `WeightsEnum.verify`,
`_fuse_modules`, `_replace_relu`, `quantize_model`, `load_state_dict`,
the floating-point weights registries and the base residual blocks) are
not part of the analysed sources; each such definition carries a doc
comment starting with `Modelled from the spec:` and follows the
specification's description of that collaborator.
-/

namespace QResNet

/-! ## Weights registries

Members mirror the enum classes in the source file.  In a Python `Enum`,
`DEFAULT = <member>` creates an alias for an existing member, not a new
member, so `DEFAULT` is embedded as a plain definition aliasing the
member it points to. -/

/-- Quantized weights registry for ResNet-18 (source lines 160-174). -/
inductive ResNet18_QuantizedWeights where
  | IMAGENET1K_FBGEMM_V1
deriving DecidableEq, Repr

/-- Alias created by `DEFAULT = IMAGENET1K_FBGEMM_V1` (source line 174). -/
def ResNet18_QuantizedWeights.DEFAULT : ResNet18_QuantizedWeights :=
  ResNet18_QuantizedWeights.IMAGENET1K_FBGEMM_V1

/-- Quantized weights registry for ResNet-50 (source lines 177-204). -/
inductive ResNet50_QuantizedWeights where
  | IMAGENET1K_FBGEMM_V1
  | IMAGENET1K_FBGEMM_V2
deriving DecidableEq, Repr

/-- Alias created by `DEFAULT = IMAGENET1K_FBGEMM_V2` (source line 204). -/
def ResNet50_QuantizedWeights.DEFAULT : ResNet50_QuantizedWeights :=
  ResNet50_QuantizedWeights.IMAGENET1K_FBGEMM_V2

/-- Quantized weights registry for ResNeXt-101 32x8d (source lines 207-234). -/
inductive ResNeXt101_32X8D_QuantizedWeights where
  | IMAGENET1K_FBGEMM_V1
  | IMAGENET1K_FBGEMM_V2
deriving DecidableEq, Repr

/-- Alias created by `DEFAULT = IMAGENET1K_FBGEMM_V2` (source line 234). -/
def ResNeXt101_32X8D_QuantizedWeights.DEFAULT : ResNeXt101_32X8D_QuantizedWeights :=
  ResNeXt101_32X8D_QuantizedWeights.IMAGENET1K_FBGEMM_V2

/-- Quantized weights registry for ResNeXt-101 64x4d (source lines 237-252). -/
inductive ResNeXt101_64X4D_QuantizedWeights where
  | IMAGENET1K_FBGEMM_V1
deriving DecidableEq, Repr

/-- Alias created by `DEFAULT = IMAGENET1K_FBGEMM_V1` (source line 252). -/
def ResNeXt101_64X4D_QuantizedWeights.DEFAULT : ResNeXt101_64X4D_QuantizedWeights :=
  ResNeXt101_64X4D_QuantizedWeights.IMAGENET1K_FBGEMM_V1

/-- Modelled from the spec: the floating-point weights registry for ResNet-18
(imported from `torchvision.models.resnet`, not in the analysed sources).
Only the member referenced by this file is modelled. -/
inductive ResNet18_Weights where
  | IMAGENET1K_V1
deriving DecidableEq, Repr

/-- Modelled from the spec: the floating-point weights registry for ResNet-50
(imported, not in the analysed sources); members referenced by this file. -/
inductive ResNet50_Weights where
  | IMAGENET1K_V1
  | IMAGENET1K_V2
deriving DecidableEq, Repr

/-- Modelled from the spec: the floating-point weights registry for
ResNeXt-101 32x8d (imported, not in the analysed sources). -/
inductive ResNeXt101_32X8D_Weights where
  | IMAGENET1K_V1
  | IMAGENET1K_V2
deriving DecidableEq, Repr

/-- Modelled from the spec: the floating-point weights registry for
ResNeXt-101 64x4d (imported, not in the analysed sources). -/
inductive ResNeXt101_64X4D_Weights where
  | IMAGENET1K_V1
deriving DecidableEq, Repr

/-- One value ranging over every weights variant of every registry this file
touches, so that the shared pipeline `_resnet` can take any of them. -/
inductive AnyWeights where
  | rn18q (w : ResNet18_QuantizedWeights)
  | rn18f (w : ResNet18_Weights)
  | rn50q (w : ResNet50_QuantizedWeights)
  | rn50f (w : ResNet50_Weights)
  | rx32q (w : ResNeXt101_32X8D_QuantizedWeights)
  | rx32f (w : ResNeXt101_32X8D_Weights)
  | rx64q (w : ResNeXt101_64X4D_QuantizedWeights)
  | rx64f (w : ResNeXt101_64X4D_Weights)
deriving DecidableEq, Repr

/-- The registry (enum class) a weights variant belongs to; used by `verify`. -/
inductive Registry where
  | rn18Quant | rn18Float
  | rn50Quant | rn50Float
  | rx32Quant | rx32Float
  | rx64Quant | rx64Float
deriving DecidableEq, Repr

/-- The registry each variant is a member of. -/
def AnyWeights.registry : AnyWeights → Registry
  | .rn18q _ => .rn18Quant
  | .rn18f _ => .rn18Float
  | .rn50q _ => .rn50Quant
  | .rn50f _ => .rn50Float
  | .rx32q _ => .rx32Quant
  | .rx32f _ => .rx32Float
  | .rx64q _ => .rx64Quant
  | .rx64f _ => .rx64Float

/-! ## Legacy interface lambdas

Each `@handle_legacy_interface(weights=("pretrained", lambda ...))`
decoration carries a lambda that picks the weights the legacy boolean
resolves to, reading `quantize` from the keyword arguments.  The lambdas
below are the ones at source lines 255-262, 304-311 and 353-360, as pure
functions of the `quantize` flag. -/

/-- Legacy lambda of `resnet18` (source lines 255-262). -/
def resnet18LegacyWeights (quantize : Bool) : AnyWeights :=
  if quantize then .rn18q .IMAGENET1K_FBGEMM_V1 else .rn18f .IMAGENET1K_V1

/-- Legacy lambda of `resnet50` (source lines 304-311). -/
def resnet50LegacyWeights (quantize : Bool) : AnyWeights :=
  if quantize then .rn50q .IMAGENET1K_FBGEMM_V1 else .rn50f .IMAGENET1K_V1

/-- Legacy lambda of `resnext101_32x8d` (source lines 353-360). -/
def resnext101_32x8dLegacyWeights (quantize : Bool) : AnyWeights :=
  if quantize then .rx32q .IMAGENET1K_FBGEMM_V1 else .rx32f .IMAGENET1K_V1

/-! ## Weights metadata -/

/-- Modelled from the spec: the ImageNet category-label list
(`_IMAGENET_CATEGORIES`, imported from `.._meta`, not in the analysed
sources).  Only its length and identity matter here; torchvision ships
1000 labels. -/
def imagenetCategories : List String := List.replicate 1000 "imagenet-label"

/-- Metadata of a weights variant: the fields read by `_resnet`
(source lines 135-138): the category-label list and the optional backend
identifier. -/
structure WeightsMeta where
  categories : List String
  backend : Option String
deriving DecidableEq, Repr

/-- The metadata mapping of each variant.  Quantized variants inherit
`_COMMON_META` (source lines 152-157): ImageNet categories and backend
"fbgemm".  The floating-point variants are modelled from the spec: their
metadata has the category-label list and no backend entry. -/
def AnyWeights.meta : AnyWeights → WeightsMeta
  | .rn18q _ => ⟨imagenetCategories, some "fbgemm"⟩
  | .rn50q _ => ⟨imagenetCategories, some "fbgemm"⟩
  | .rx32q _ => ⟨imagenetCategories, some "fbgemm"⟩
  | .rx64q _ => ⟨imagenetCategories, some "fbgemm"⟩
  | .rn18f _ => ⟨imagenetCategories, none⟩
  | .rn50f _ => ⟨imagenetCategories, none⟩
  | .rx32f _ => ⟨imagenetCategories, none⟩
  | .rx64f _ => ⟨imagenetCategories, none⟩

/-! ## Keyword arguments

Python `**kwargs` dictionaries are embedded as association lists from
string keys to a small value type. -/

/-- Values a keyword argument can hold in the embedded calls. -/
inductive KwVal where
  | nat (n : Nat)
  | str (s : String)
  | bool (b : Bool)
deriving DecidableEq, Repr

/-- Keyword-argument dictionary. -/
def Kwargs : Type := List (String × KwVal)

instance : DecidableEq Kwargs := by unfold Kwargs; infer_instance

/-- Dictionary lookup (`kwargs.get(k)` / `kwargs[k]`). -/
def Kwargs.lookup (kwargs : Kwargs) (k : String) : Option KwVal :=
  List.lookup k kwargs

/-- Remove a key (the removal part of `kwargs.pop(k, d)`). -/
def Kwargs.remove (kwargs : Kwargs) (k : String) : Kwargs :=
  List.filter (fun p => p.1 ≠ k) kwargs

/-- Set a key to a value, replacing any existing binding. -/
def Kwargs.set (kwargs : Kwargs) (k : String) (v : KwVal) : Kwargs :=
  (k, v) :: kwargs.remove k

/-- Modelled from the spec: `_ovewrite_named_param` (imported from
`.._utils`, not in the analysed sources).  The spec describes it as
overriding the named parameter with the resolved value, overriding any
conflicting user-supplied value (resolved values take precedence, the
user value is discarded). -/
def _ovewrite_named_param (kwargs : Kwargs) (param : String) (v : KwVal) : Kwargs :=
  kwargs.set param v

/-- Read a string-valued key with a default (`kwargs.pop("backend", "fbgemm")`
reads the value; `Kwargs.remove` models the removal). -/
def Kwargs.getStr (kwargs : Kwargs) (k : String) (dflt : String) : String :=
  match kwargs.lookup k with
  | some (.str s) => s
  | _ => dflt

/-! ## Module slots and fusion

Each named sub-module slot of a block holds a layer kind.  Fusion
(`_fuse_modules` with `inplace=True`) rewrites a named group of slots
into a fused operator followed by identity placeholders. -/

/-- Kinds of layers a sub-module slot can hold. -/
inductive Layer where
  | conv | bn | relu | identity | fusedConvBnRelu | fusedConvBn
deriving DecidableEq, Repr, Fintype

/-- Modelled from the spec: the effect of `_fuse_modules` (from `.utils`,
not in the analysed sources) on a three-slot group.  A
convolution+normalization+activation group becomes one fused operator
with identity placeholders; a group that is not fusable is left
unchanged ("fused or unchanged if not fusable"). -/
def fuse3 (c b r : Layer) : Layer × Layer × Layer :=
  if c = .conv ∧ b = .bn ∧ r = .relu then (.fusedConvBnRelu, .identity, .identity)
  else (c, b, r)

/-- Modelled from the spec: the effect of `_fuse_modules` on a two-slot
convolution+normalization group; not-fusable groups are unchanged. -/
def fuse2 (c b : Layer) : Layer × Layer :=
  if c = .conv ∧ b = .bn then (.fusedConvBn, .identity) else (c, b)

/-- One `_fuse_modules` submission: the container it targets, the named
group of sub-module slots handed over, and the `is_qat` flag passed. -/
structure FuseEvent where
  target : String
  group : List String
  isQat : Option Bool
deriving DecidableEq, Repr

/-- The downsample path: a two-element sequential whose slots are named
"0" (convolution) and "1" (normalization). -/
structure DownsampleMods where
  conv : Layer
  bn : Layer
deriving DecidableEq, Repr

/-- Named sub-module slots of `QuantizableBasicBlock` (source lines 37-62). -/
structure BasicBlockMods where
  conv1 : Layer
  bn1 : Layer
  relu : Layer
  conv2 : Layer
  bn2 : Layer
  downsample : Option DownsampleMods
deriving DecidableEq, Repr

/-- Named sub-module slots of `QuantizableBottleneck` (source lines 65-95). -/
structure BottleneckMods where
  conv1 : Layer
  bn1 : Layer
  relu1 : Layer
  conv2 : Layer
  bn2 : Layer
  relu2 : Layer
  conv3 : Layer
  bn3 : Layer
  downsample : Option DownsampleMods
deriving DecidableEq, Repr

/-- `QuantizableBasicBlock.fuse_model` (source lines 59-62): submits the
groups `[["conv1","bn1","relu"],["conv2","bn2"]]` on the block and, when a
downsample path is present, `["0","1"]` on it; returns the mutated block
and the submissions made. -/
def QuantizableBasicBlock.fuse_model (isQat : Option Bool) (m : BasicBlockMods) :
    BasicBlockMods × List FuseEvent :=
  let f1 := fuse3 m.conv1 m.bn1 m.relu
  let f2 := fuse2 m.conv2 m.bn2
  let evs : List FuseEvent :=
    [⟨"self", ["conv1", "bn1", "relu"], isQat⟩, ⟨"self", ["conv2", "bn2"], isQat⟩]
  match m.downsample with
  | some d =>
      let fd := fuse2 d.conv d.bn
      (⟨f1.1, f1.2.1, f1.2.2, f2.1, f2.2, some ⟨fd.1, fd.2⟩⟩,
        evs ++ [⟨"downsample", ["0", "1"], isQat⟩])
  | none => (⟨f1.1, f1.2.1, f1.2.2, f2.1, f2.2, none⟩, evs)

/-- `QuantizableBottleneck.fuse_model` (source lines 90-95): submits the
groups `[["conv1","bn1","relu1"],["conv2","bn2","relu2"],["conv3","bn3"]]`
on the block and, when a downsample path is present, `["0","1"]` on it. -/
def QuantizableBottleneck.fuse_model (isQat : Option Bool) (m : BottleneckMods) :
    BottleneckMods × List FuseEvent :=
  let f1 := fuse3 m.conv1 m.bn1 m.relu1
  let f2 := fuse3 m.conv2 m.bn2 m.relu2
  let f3 := fuse2 m.conv3 m.bn3
  let evs : List FuseEvent :=
    [⟨"self", ["conv1", "bn1", "relu1"], isQat⟩,
      ⟨"self", ["conv2", "bn2", "relu2"], isQat⟩,
      ⟨"self", ["conv3", "bn3"], isQat⟩]
  match m.downsample with
  | some d =>
      let fd := fuse2 d.conv d.bn
      (⟨f1.1, f1.2.1, f1.2.2, f2.1, f2.2.1, f2.2.2, f3.1, f3.2, some ⟨fd.1, fd.2⟩⟩,
        evs ++ [⟨"downsample", ["0", "1"], isQat⟩])
  | none => (⟨f1.1, f1.2.1, f1.2.2, f2.1, f2.2.1, f2.2.2, f3.1, f3.2, none⟩, evs)

/-- The runtime class (`type(m)`) of a contained module, as tested by the
exact-type checks at source line 123.  Strict subclasses of the two
adapter classes have their own distinct runtime type, so they fail the
`type(m) is ...` test even though `isinstance` would accept them. -/
inductive ModKind where
  | qBottleneck
  | qBasicBlock
  | subclassOfQBottleneck
  | subclassOfQBasicBlock
  | other
deriving DecidableEq, Repr

/-- Block-adapter state: the slots of either block shape. -/
inductive BlockState where
  | basic (m : BasicBlockMods)
  | bottleneck (m : BottleneckMods)
deriving DecidableEq, Repr

/-- Dynamic dispatch of `m.fuse_model(is_qat)` on a block instance. -/
def BlockState.fuse_model (isQat : Option Bool) : BlockState → BlockState × List FuseEvent
  | .basic m =>
      let r := QuantizableBasicBlock.fuse_model isQat m
      (.basic r.1, r.2)
  | .bottleneck m =>
      let r := QuantizableBottleneck.fuse_model isQat m
      (.bottleneck r.1, r.2)

/-- A module yielded by `self.modules()`: its runtime class and its state. -/
structure SubModule where
  kind : ModKind
  state : BlockState
deriving DecidableEq, Repr

/-- The network's own stem slots `conv1`, `bn1`, `relu`. -/
structure StemMods where
  conv1 : Layer
  bn1 : Layer
  relu : Layer
deriving DecidableEq, Repr

/-- Module tree of a `QuantizableResNet`: the stem slots plus the
contained block modules in traversal order. -/
structure NetState where
  stem : StemMods
  blocks : List SubModule
deriving DecidableEq, Repr

/-- Whether source line 123 fires for a module:
`type(m) is QuantizableBottleneck or type(m) is QuantizableBasicBlock`. -/
def exactAdapterType (k : ModKind) : Bool :=
  k = ModKind.qBottleneck || k = ModKind.qBasicBlock

/-- One iteration of the module walk at source lines 122-124: the module
is block-fused exactly when its runtime type passes the exact-type test,
and is left untouched otherwise. -/
def fuseWalkStep (isQat : Option Bool) (sm : SubModule) : SubModule × List FuseEvent :=
  if exactAdapterType sm.kind then
    (⟨sm.kind, (sm.state.fuse_model isQat).1⟩, (sm.state.fuse_model isQat).2)
  else (sm, [])

/-- `QuantizableResNet.fuse_model` (source lines 114-124): first submits the
network's own `["conv1","bn1","relu"]` triple, then walks the contained
modules and calls the block-level fuse, with the same `is_qat` flag, on
exactly those whose runtime type is exactly one of the two adapter
classes. -/
def QuantizableResNet.fuse_model (isQat : Option Bool) (n : NetState) :
    NetState × List FuseEvent :=
  let f := fuse3 n.stem.conv1 n.stem.bn1 n.stem.relu
  let walked := n.blocks.map (fuseWalkStep isQat)
  (⟨⟨f.1, f.2.1, f.2.2⟩, walked.map Prod.fst⟩,
    ⟨"self", ["conv1", "bn1", "relu"], isQat⟩ :: (walked.map Prod.snd).flatten)

/-- Number of fused operators a layer slot contributes. -/
def Layer.fusedCount : Layer → Nat
  | .fusedConvBnRelu => 1
  | .fusedConvBn => 1
  | _ => 0

/-- Fused-unit count of a downsample path. -/
def DownsampleMods.fusedCount (d : DownsampleMods) : Nat :=
  d.conv.fusedCount + d.bn.fusedCount

/-- Fused-unit count of a basic block. -/
def BasicBlockMods.fusedCount (m : BasicBlockMods) : Nat :=
  m.conv1.fusedCount + m.bn1.fusedCount + m.relu.fusedCount +
    m.conv2.fusedCount + m.bn2.fusedCount +
    (match m.downsample with | some d => d.fusedCount | none => 0)

/-- Fused-unit count of a bottleneck block. -/
def BottleneckMods.fusedCount (m : BottleneckMods) : Nat :=
  m.conv1.fusedCount + m.bn1.fusedCount + m.relu1.fusedCount +
    m.conv2.fusedCount + m.bn2.fusedCount + m.relu2.fusedCount +
    m.conv3.fusedCount + m.bn3.fusedCount +
    (match m.downsample with | some d => d.fusedCount | none => 0)

/-- Fused-unit count of a block state. -/
def BlockState.fusedCount : BlockState → Nat
  | .basic m => m.fusedCount
  | .bottleneck m => m.fusedCount

/-- Fused-unit count of the whole network. -/
def NetState.fusedCount (n : NetState) : Nat :=
  n.stem.conv1.fusedCount + n.stem.bn1.fusedCount + n.stem.relu.fusedCount +
    (n.blocks.map fun sm => sm.state.fusedCount).sum

/-! ## Factory pipeline -/

/-- Block class a factory passes to `_resnet`. -/
inductive BlockKind where
  | basic
  | bottleneck
deriving DecidableEq, Repr

/-- Failures a factory call can surface. -/
inductive FactoryError where
  | invalidSelection
  | unknownKeyword (k : String)
  | structuralMismatch
deriving DecidableEq, Repr

/-- A freshly constructed block of the given class; the first block of a
stage that changes resolution or width carries a downsample path. -/
def freshBlock (bk : BlockKind) (hasDown : Bool) : SubModule :=
  let d : Option DownsampleMods := if hasDown then some ⟨.conv, .bn⟩ else none
  match bk with
  | .basic => ⟨.qBasicBlock, .basic ⟨.conv, .bn, .relu, .conv, .bn, d⟩⟩
  | .bottleneck => ⟨.qBottleneck, .bottleneck ⟨.conv, .bn, .relu, .conv, .bn, .relu, .conv, .bn, d⟩⟩

/-- One stage: `count` blocks, the first optionally with a downsample path. -/
def mkStage (bk : BlockKind) (count : Nat) (firstHasDown : Bool) : List SubModule :=
  match count with
  | 0 => []
  | n + 1 => freshBlock bk firstHasDown :: List.replicate n (freshBlock bk false)

/-- Modelled from the spec: the module tree the base `ResNet` constructor
(imported `torchvision.models.resnet.ResNet.__init__`, not in the analysed
sources) builds from the per-stage repetition counts: four stages of
blocks after the stem; the first block of stages beyond the first — and of
every stage for the expanding bottleneck class — has a downsample path. -/
def buildBlocks (bk : BlockKind) : List Nat → Nat → List SubModule
  | [], _ => []
  | c :: rest, i =>
      mkStage bk c (decide (0 < i) || (bk == .bottleneck)) ++ buildBlocks bk rest (i + 1)

/-- Network state assembled by a factory call. -/
structure Network where
  blockKind : BlockKind
  layers : List Nat
  numClasses : Nat
  groups : Nat
  widthPerGroup : Nat
  mods : NetState
  reluReplaced : Bool
  quantizedWith : Option String
  loadedWeights : Option AnyWeights
deriving DecidableEq, Repr

/-- Read a Nat-valued keyword with a default. -/
def Kwargs.getNat (kwargs : Kwargs) (k : String) (dflt : Nat) : Nat :=
  match kwargs.lookup k with
  | some (.nat n) => n
  | _ => dflt

/-- Keyword parameters the base `ResNet` constructor accepts. -/
def allowedKeys : List String :=
  ["num_classes", "groups", "width_per_group", "zero_init_residual"]

/-- Modelled from the spec: the `QuantizableResNet(block, layers, **kwargs)`
construction (the base `ResNet.__init__` is not in the analysed sources).
A keyword outside the constructor's parameter list is rejected as an
unknown keyword, per standard keyword-argument semantics; otherwise the
network is assembled with the requested class count and grouped-convolution
parameters (defaults 1000, 1 and 64). -/
def QuantizableResNet.construct (bk : BlockKind) (layers : List Nat) (kwargs : Kwargs) :
    Except FactoryError Network :=
  match kwargs.find? (fun p => !(allowedKeys.contains p.1)) with
  | some p => .error (.unknownKeyword p.1)
  | none =>
      .ok
        { blockKind := bk
          layers := layers
          numClasses := kwargs.getNat "num_classes" 1000
          groups := kwargs.getNat "groups" 1
          widthPerGroup := kwargs.getNat "width_per_group" 64
          mods := ⟨⟨.conv, .bn, .relu⟩, buildBlocks bk layers 0⟩
          reluReplaced := false
          quantizedWith := none
          loadedWeights := none }

/-- Modelled from the spec: `_replace_relu` (from `.utils`, not in the
analysed sources) replaces every plain activation instance in the fresh
network with a fusion-compatible one, in place. -/
def _replace_relu (net : Network) : Network :=
  { net with reluReplaced := true }

/-- Modelled from the spec: `quantize_model` (from `.utils`, not in the
analysed sources) runs `fuse_model` on the network, then hands it to the
external post-training quantization pipeline with the given backend
identifier. -/
def quantize_model (net : Network) (backend : String) : Network :=
  { net with
      mods := (QuantizableResNet.fuse_model none net.mods).1
      quantizedWith := some backend }

/-- Modelled from the spec: `load_state_dict` with a checkpoint fetched by
`weights.get_state_dict` (both external to the analysed sources).  A
checkpoint of a variant carries parameters for as many classes as the
variant's category metadata; loading fails with a shape/key mismatch when
the network's class count differs, and otherwise installs the parameters. -/
def load_state_dict (net : Network) (w : AnyWeights) : Except FactoryError Network :=
  if net.numClasses = w.meta.categories.length then
    .ok { net with loadedWeights := some w }
  else .error .structuralMismatch

/-- Observable steps of a factory call, in order. -/
inductive PipelineEvent where
  | constructed
  | replacedRelu
  | fusedModel
  | quantPipeline (backend : String)
  | loadedWeights
deriving DecidableEq, Repr

instance {ε α : Type} [DecidableEq ε] [DecidableEq α] : DecidableEq (Except ε α) :=
  fun a b =>
    match a, b with
    | .error e, .error f =>
        if h : e = f then .isTrue (by rw [h]) else .isFalse (fun c => h (by injection c))
    | .ok x, .ok y =>
        if h : x = y then .isTrue (by rw [h]) else .isFalse (fun c => h (by injection c))
    | .error _, .ok _ => .isFalse (fun c => by injection c)
    | .ok _, .error _ => .isFalse (fun c => by injection c)

/-- Result of a factory call: the outcome plus the ordered pipeline steps
that completed. -/
structure Outcome where
  result : Except FactoryError Network
  events : List PipelineEvent
deriving DecidableEq, Repr

/-- The shared builder `_resnet` (source lines 127-149): override
`num_classes` (and `backend` when the metadata has one) from resolved
weights, pop the backend with default "fbgemm", construct the network,
replace activations, optionally quantize, optionally load weights. -/
def _resnet (bk : BlockKind) (layers : List Nat) (weights : Option AnyWeights)
    (progress quantize : Bool) (kwargs : Kwargs) : Outcome :=
  let kwargs :=
    match weights with
    | some w =>
        let k1 := _ovewrite_named_param kwargs "num_classes" (.nat w.meta.categories.length)
        match w.meta.backend with
        | some b => _ovewrite_named_param k1 "backend" (.str b)
        | none => k1
    | none => kwargs
  let backend := kwargs.getStr "backend" "fbgemm"
  let kwargs := kwargs.remove "backend"
  match QuantizableResNet.construct bk layers kwargs with
  | .error e => ⟨.error e, []⟩
  | .ok model =>
      let model := _replace_relu model
      let evs : List PipelineEvent := [.constructed, .replacedRelu]
      let step :=
        if quantize then
          (quantize_model model backend, evs ++ [.fusedModel, .quantPipeline backend])
        else (model, evs)
      let model := step.1
      let evs := step.2
      match weights with
      | some w =>
          match load_state_dict model w with
          | .error e => ⟨.error e, evs⟩
          | .ok m => ⟨.ok m, evs ++ [.loadedWeights]⟩
      | none => ⟨.ok model, evs⟩

/-- Modelled from the spec: `WeightsEnum.verify` (from `.._api`, not in the
analysed sources): `None` passes through; a member of the expected
registry is accepted; anything else fails with an invalid-selection
error. -/
def WeightsEnumVerify (expected : Registry) (weights : Option AnyWeights) :
    Except FactoryError (Option AnyWeights) :=
  match weights with
  | none => .ok none
  | some w => if w.registry = expected then .ok (some w) else .error .invalidSelection

/-- The `resnet18` factory body (source lines 263-301). -/
def resnet18 (weights : Option AnyWeights) (progress quantize : Bool) (kwargs : Kwargs) :
    Outcome :=
  match WeightsEnumVerify (if quantize then .rn18Quant else .rn18Float) weights with
  | .error e => ⟨.error e, []⟩
  | .ok w => _resnet .basic [2, 2, 2, 2] w progress quantize kwargs

/-- The `resnet50` factory body (source lines 312-350). -/
def resnet50 (weights : Option AnyWeights) (progress quantize : Bool) (kwargs : Kwargs) :
    Outcome :=
  match WeightsEnumVerify (if quantize then .rn50Quant else .rn50Float) weights with
  | .error e => ⟨.error e, []⟩
  | .ok w => _resnet .bottleneck [3, 4, 6, 3] w progress quantize kwargs

/-- The `resnext101_32x8d` factory body (source lines 361-401): forces
`groups=32` and `width_per_group=8` before delegating. -/
def resnext101_32x8d (weights : Option AnyWeights) (progress quantize : Bool)
    (kwargs : Kwargs) : Outcome :=
  match WeightsEnumVerify (if quantize then .rx32Quant else .rx32Float) weights with
  | .error e => ⟨.error e, []⟩
  | .ok w =>
      let kwargs := _ovewrite_named_param kwargs "groups" (.nat 32)
      let kwargs := _ovewrite_named_param kwargs "width_per_group" (.nat 8)
      _resnet .bottleneck [3, 4, 23, 3] w progress quantize kwargs

/-- The `resnext101_64x4d` factory body (source lines 404-444): forces
`groups=64` and `width_per_group=4` before delegating. -/
def resnext101_64x4d (weights : Option AnyWeights) (progress quantize : Bool)
    (kwargs : Kwargs) : Outcome :=
  match WeightsEnumVerify (if quantize then .rx64Quant else .rx64Float) weights with
  | .error e => ⟨.error e, []⟩
  | .ok w =>
      let kwargs := _ovewrite_named_param kwargs "groups" (.nat 64)
      let kwargs := _ovewrite_named_param kwargs "width_per_group" (.nat 4)
      _resnet .bottleneck [3, 4, 23, 3] w progress quantize kwargs

/-- Modelled from the spec: the `handle_legacy_interface` decorator (from
`.._utils`, not in the analysed sources): a normalization step at the
factory boundary that pops the legacy `pretrained` keyword and maps it to
the modern weights argument — the decoration's lambda value when truthy,
`None` when falsy — before the factory body runs. -/
def handle_legacy_interface (legacyDefault : Bool → AnyWeights)
    (builder : Option AnyWeights → Bool → Bool → Kwargs → Outcome)
    (weights : Option AnyWeights) (progress quantize : Bool) (kwargs : Kwargs) : Outcome :=
  match kwargs.lookup "pretrained" with
  | some (.bool true) =>
      builder (some (legacyDefault quantize)) progress quantize (kwargs.remove "pretrained")
  | some (.bool false) => builder none progress quantize (kwargs.remove "pretrained")
  | _ => builder weights progress quantize kwargs

/-- `resnet18` as callers see it: the body wrapped by the legacy shim
(source lines 255-262). -/
def resnet18Call : Option AnyWeights → Bool → Bool → Kwargs → Outcome :=
  handle_legacy_interface resnet18LegacyWeights resnet18

/-- `resnet50` as callers see it: the body wrapped by the legacy shim
(source lines 304-311). -/
def resnet50Call : Option AnyWeights → Bool → Bool → Kwargs → Outcome :=
  handle_legacy_interface resnet50LegacyWeights resnet50

/-- `resnext101_32x8d` as callers see it: the body wrapped by the legacy
shim (source lines 353-360). -/
def resnext101_32x8dCall : Option AnyWeights → Bool → Bool → Kwargs → Outcome :=
  handle_legacy_interface resnext101_32x8dLegacyWeights resnext101_32x8d

/-- `resnext101_64x4d` as callers see it: the bare body — uniquely among
the four factories it carries no legacy-shim decoration (source lines
404-410). -/
def resnext101_64x4dCall : Option AnyWeights → Bool → Bool → Kwargs → Outcome :=
  resnext101_64x4d

/-! ## Forward-pass dataflow

The forward passes are embedded over an integer value domain: the
convolution and normalization sub-layers are arbitrary functions, the
activation is the rectifier, and the fusable add-then-activate operator
carries the documented semantics of the external
`FloatFunctional.add_relu`: rectified addition. -/

/-- Rectifier activation (`nn.ReLU`). -/
def reluFn (x : ℤ) : ℤ := max x 0

/-- Modelled from the spec: the external `FloatFunctional.add_relu`
operator, whose documented semantics is addition followed by the
rectifier. -/
def addReluFn (a b : ℤ) : ℤ := reluFn (a + b)

/-- The learned sub-layers of a basic block, as arbitrary functions. -/
structure BasicBlockFns where
  conv1 : ℤ → ℤ
  bn1 : ℤ → ℤ
  conv2 : ℤ → ℤ
  bn2 : ℤ → ℤ
  downsample : Option (ℤ → ℤ)

/-- The learned sub-layers of a bottleneck block, as arbitrary functions. -/
structure BottleneckFns where
  conv1 : ℤ → ℤ
  bn1 : ℤ → ℤ
  conv2 : ℤ → ℤ
  bn2 : ℤ → ℤ
  conv3 : ℤ → ℤ
  bn3 : ℤ → ℤ
  downsample : Option (ℤ → ℤ)

/-- `QuantizableBasicBlock.forward` (source lines 42-57): the residual
step goes through the fusable `add_relu` operator. -/
def QuantizableBasicBlock.forward (f : BasicBlockFns) (x : ℤ) : ℤ :=
  let identity := x
  let out := f.conv1 x
  let out := f.bn1 out
  let out := reluFn out
  let out := f.conv2 out
  let out := f.bn2 out
  let identity := match f.downsample with | some d => d x | none => identity
  addReluFn out identity

/-- Modelled from the spec: the base `BasicBlock.forward` (imported
`torchvision.models.resnet`, not in the analysed sources): the same
stages, with a separate addition followed by the shared activation. -/
def BasicBlock.forward (f : BasicBlockFns) (x : ℤ) : ℤ :=
  let identity := x
  let out := f.conv1 x
  let out := f.bn1 out
  let out := reluFn out
  let out := f.conv2 out
  let out := f.bn2 out
  let identity := match f.downsample with | some d => d x | none => identity
  let out := out + identity
  reluFn out

/-- `QuantizableBottleneck.forward` (source lines 72-88): three stages,
each with its own activation instance, and the residual step through the
fusable `add_relu` operator. -/
def QuantizableBottleneck.forward (f : BottleneckFns) (x : ℤ) : ℤ :=
  let identity := x
  let out := f.conv1 x
  let out := f.bn1 out
  let out := reluFn out
  let out := f.conv2 out
  let out := f.bn2 out
  let out := reluFn out
  let out := f.conv3 out
  let out := f.bn3 out
  let identity := match f.downsample with | some d => d x | none => identity
  addReluFn out identity

/-- Modelled from the spec: the base `Bottleneck.forward` (imported, not in
the analysed sources): the same three stages with the shared activation
after each normalization, then a separate addition followed by the
activation. -/
def Bottleneck.forward (f : BottleneckFns) (x : ℤ) : ℤ :=
  let identity := x
  let out := f.conv1 x
  let out := f.bn1 out
  let out := reluFn out
  let out := f.conv2 out
  let out := f.bn2 out
  let out := reluFn out
  let out := f.conv3 out
  let out := f.bn3 out
  let identity := match f.downsample with | some d => d x | none => identity
  let out := out + identity
  reluFn out

/-! ## Observation helpers on factory outcomes -/

/-- Class count of the returned network, when the call succeeded. -/
def Outcome.numClassesOf (o : Outcome) : Option Nat :=
  match o.result with | .ok n => some n.numClasses | .error _ => none

/-- Grouped-convolution group count of the returned network. -/
def Outcome.groupsOf (o : Outcome) : Option Nat :=
  match o.result with | .ok n => some n.groups | .error _ => none

/-- Per-group width of the returned network. -/
def Outcome.widthOf (o : Outcome) : Option Nat :=
  match o.result with | .ok n => some n.widthPerGroup | .error _ => none

/-- Backend the quantization pipeline ran with, when it ran. -/
def Outcome.backendOf (o : Outcome) : Option String :=
  match o.result with | .ok n => n.quantizedWith | .error _ => none

/-- Weights variant whose parameters were loaded, if any. -/
def Outcome.loadedOf (o : Outcome) : Option AnyWeights :=
  match o.result with | .ok n => n.loadedWeights | .error _ => none

/-! ## Claim theorems -/

/-- C1 counterexample: the legacy boolean flag with `quantize=true` does
NOT resolve to the entry aliased as `DEFAULT` for `resnet50` and
`resnext101_32x8d`: the decoration lambdas pick `IMAGENET1K_FBGEMM_V1`
while `DEFAULT` aliases `IMAGENET1K_FBGEMM_V2` in both registries, as a
legacy-normalized call's loaded weights show. -/
theorem C1_counterexample :
    resnet50LegacyWeights true ≠ .rn50q ResNet50_QuantizedWeights.DEFAULT ∧
    resnext101_32x8dLegacyWeights true ≠ .rx32q ResNeXt101_32X8D_QuantizedWeights.DEFAULT ∧
    (resnet50Call none true true [("pretrained", KwVal.bool true)]).loadedOf =
      some (.rn50q .IMAGENET1K_FBGEMM_V1) ∧
    some (AnyWeights.rn50q ResNet50_QuantizedWeights.DEFAULT) ≠
      some (AnyWeights.rn50q .IMAGENET1K_FBGEMM_V1) := by
  refine ⟨by decide, by decide, by rfl, by decide⟩

/-- C1 amended: the legacy boolean flag resolves deterministically, as a
pure function of the `quantize` flag alone (hence independently of call
order), to the fixed `IMAGENET1K_FBGEMM_V1` / `IMAGENET1K_V1` entry of the
applicable registry.  For `resnet18` that quantized entry coincides with
the `DEFAULT` alias; for `resnet50` and `resnext101_32x8d` it is the
`IMAGENET1K_FBGEMM_V1` entry, which is not the one aliased `DEFAULT`. -/
theorem C1_legacy_flag_resolution :
    (∀ q, resnet18LegacyWeights q =
      if q then .rn18q .IMAGENET1K_FBGEMM_V1 else .rn18f .IMAGENET1K_V1) ∧
    (∀ q, resnet50LegacyWeights q =
      if q then .rn50q .IMAGENET1K_FBGEMM_V1 else .rn50f .IMAGENET1K_V1) ∧
    (∀ q, resnext101_32x8dLegacyWeights q =
      if q then .rx32q .IMAGENET1K_FBGEMM_V1 else .rx32f .IMAGENET1K_V1) ∧
    resnet18LegacyWeights true = .rn18q ResNet18_QuantizedWeights.DEFAULT ∧
    resnet50LegacyWeights true ≠ .rn50q ResNet50_QuantizedWeights.DEFAULT ∧
    resnext101_32x8dLegacyWeights true ≠ .rx32q ResNeXt101_32X8D_QuantizedWeights.DEFAULT := by
  refine ⟨fun q => rfl, fun q => rfl, fun q => rfl, by decide, by decide, by decide⟩

/-- C7: the narrow block's fuse operation submits exactly the groups
{conv1, bn1, relu} and {conv2, bn2}, the bottleneck block's submits
exactly {conv1, bn1, relu1}, {conv2, bn2, relu2} and {conv3, bn3}, each
followed — exactly when a downsample path exists — by the downsample's
{"0", "1"} pair, and both mutate the block state they are given. -/
theorem C7_fuse_groups (isQat : Option Bool) (b : BasicBlockMods) (t : BottleneckMods) :
    (QuantizableBasicBlock.fuse_model isQat b).2 =
      ([⟨"self", ["conv1", "bn1", "relu"], isQat⟩, ⟨"self", ["conv2", "bn2"], isQat⟩] ++
        match b.downsample with
        | some _ => [⟨"downsample", ["0", "1"], isQat⟩]
        | none => []) ∧
    (QuantizableBottleneck.fuse_model isQat t).2 =
      ([⟨"self", ["conv1", "bn1", "relu1"], isQat⟩,
          ⟨"self", ["conv2", "bn2", "relu2"], isQat⟩,
          ⟨"self", ["conv3", "bn3"], isQat⟩] ++
        match t.downsample with
        | some _ => [⟨"downsample", ["0", "1"], isQat⟩]
        | none => []) := by
  constructor
  · cases hb : b.downsample <;>
      simp [QuantizableBasicBlock.fuse_model, hb]
  · cases ht : t.downsample <;>
      simp [QuantizableBottleneck.fuse_model, ht]

/-- C9: for every choice of learned sub-layers and every input value, the
quantizable blocks' forward passes — whose residual step goes through the
fusable add-then-activate operator — compute the same function as the base
blocks' separate addition followed by activation. -/
theorem C9_forward_refinement (fb : BasicBlockFns) (ft : BottleneckFns) (x : ℤ) :
    QuantizableBasicBlock.forward fb x = BasicBlock.forward fb x ∧
    QuantizableBottleneck.forward ft x = Bottleneck.forward ft x :=
  ⟨rfl, rfl⟩

/-- C3: user-supplied values for `groups` and `width_per_group` — whatever
they are — are overridden unconditionally: `resnext101_32x8d` still builds
a network with `groups=32, width_per_group=8` and `resnext101_64x4d` one
with `groups=64, width_per_group=4`, with or without resolved weights, and
the calls succeed. -/
theorem C3_forced_group_width (q : Bool) (g wpg : Nat) :
    (resnext101_32x8dCall none true q
        [("groups", .nat g), ("width_per_group", .nat wpg)]).groupsOf = some 32 ∧
    (resnext101_32x8dCall none true q
        [("groups", .nat g), ("width_per_group", .nat wpg)]).widthOf = some 8 ∧
    (resnext101_64x4dCall none true q
        [("groups", .nat g), ("width_per_group", .nat wpg)]).groupsOf = some 64 ∧
    (resnext101_64x4dCall none true q
        [("groups", .nat g), ("width_per_group", .nat wpg)]).widthOf = some 4 ∧
    (resnext101_32x8dCall (some (.rx32q .IMAGENET1K_FBGEMM_V2)) true true
        [("groups", .nat g), ("width_per_group", .nat wpg)]).groupsOf = some 32 ∧
    (resnext101_64x4dCall (some (.rx64q .IMAGENET1K_FBGEMM_V1)) true true
        [("groups", .nat g), ("width_per_group", .nat wpg)]).widthOf = some 4 := by
  cases q <;> exact ⟨rfl, rfl, rfl, rfl, rfl, rfl⟩

/-- C2: when a weights variant is resolved, the class count is taken from
the length of the variant's category metadata and the backend from its
metadata, whatever conflicting `num_classes` or `backend` keyword the user
supplies: the call succeeds with the metadata values installed and the
user values discarded. -/
theorem C2_resolved_weights_precedence (n : Nat) (b : String) :
    (resnet18Call (some (.rn18q .IMAGENET1K_FBGEMM_V1)) true true
        [("num_classes", .nat n), ("backend", .str b)]).numClassesOf =
      some (AnyWeights.rn18q .IMAGENET1K_FBGEMM_V1).meta.categories.length ∧
    (resnet18Call (some (.rn18q .IMAGENET1K_FBGEMM_V1)) true true
        [("num_classes", .nat n), ("backend", .str b)]).backendOf = some "fbgemm" ∧
    (resnet50Call (some (.rn50q .IMAGENET1K_FBGEMM_V2)) true true
        [("num_classes", .nat n), ("backend", .str b)]).numClassesOf =
      some (AnyWeights.rn50q .IMAGENET1K_FBGEMM_V2).meta.categories.length ∧
    (resnet50Call (some (.rn50q .IMAGENET1K_FBGEMM_V2)) true true
        [("num_classes", .nat n), ("backend", .str b)]).backendOf = some "fbgemm" ∧
    (resnext101_32x8dCall (some (.rx32q .IMAGENET1K_FBGEMM_V2)) true true
        [("num_classes", .nat n), ("backend", .str b)]).numClassesOf =
      some (AnyWeights.rx32q .IMAGENET1K_FBGEMM_V2).meta.categories.length ∧
    (resnext101_32x8dCall (some (.rx32q .IMAGENET1K_FBGEMM_V2)) true true
        [("num_classes", .nat n), ("backend", .str b)]).backendOf = some "fbgemm" ∧
    (resnext101_64x4dCall (some (.rx64q .IMAGENET1K_FBGEMM_V1)) true true
        [("num_classes", .nat n), ("backend", .str b)]).numClassesOf =
      some (AnyWeights.rx64q .IMAGENET1K_FBGEMM_V1).meta.categories.length ∧
    (resnext101_64x4dCall (some (.rx64q .IMAGENET1K_FBGEMM_V1)) true true
        [("num_classes", .nat n), ("backend", .str b)]).backendOf = some "fbgemm" ∧
    (resnet18Call (some (.rn18f .IMAGENET1K_V1)) true false
        [("num_classes", .nat n)]).numClassesOf =
      some (AnyWeights.rn18f .IMAGENET1K_V1).meta.categories.length :=
  ⟨rfl, rfl, rfl, rfl, rfl, rfl, rfl, rfl, rfl⟩

/-- C10: `resnext101_64x4d` is not wrapped by the legacy shim, so a call
passing the legacy `pretrained` boolean is rejected as an unknown keyword
(with nothing built and no weights normalization), while the three
shim-wrapped factories normalize `pretrained=True` to their decoration's
default weights variant. -/
theorem C10_no_legacy_shim_on_64x4d (b q : Bool) :
    resnext101_64x4dCall none true q [("pretrained", .bool b)] =
      ⟨.error (.unknownKeyword "pretrained"), []⟩ ∧
    (resnet18Call none true true [("pretrained", .bool true)]).loadedOf =
      some (.rn18q .IMAGENET1K_FBGEMM_V1) ∧
    (resnet50Call none true true [("pretrained", .bool true)]).loadedOf =
      some (.rn50q .IMAGENET1K_FBGEMM_V1) ∧
    (resnext101_32x8dCall none true true [("pretrained", .bool true)]).loadedOf =
      some (.rx32q .IMAGENET1K_FBGEMM_V1) :=
  ⟨rfl, rfl, rfl, rfl⟩

/-- Every weights variant of every registry in this file. -/
def allVariants : List AnyWeights :=
  [.rn18q .IMAGENET1K_FBGEMM_V1, .rn18f .IMAGENET1K_V1,
    .rn50q .IMAGENET1K_FBGEMM_V1, .rn50q .IMAGENET1K_FBGEMM_V2,
    .rn50f .IMAGENET1K_V1, .rn50f .IMAGENET1K_V2,
    .rx32q .IMAGENET1K_FBGEMM_V1, .rx32q .IMAGENET1K_FBGEMM_V2,
    .rx32f .IMAGENET1K_V1, .rx32f .IMAGENET1K_V2,
    .rx64q .IMAGENET1K_FBGEMM_V1, .rx64f .IMAGENET1K_V1]

/-- C5: for each factory and each weights variant, the call with that
variant fails with the invalid-selection error — before any network is
constructed, as the empty step trace shows — exactly when the variant
belongs to a registry other than the applicable one (quantized when
`quantize=true`, floating-point otherwise), and is accepted exactly when
it belongs to the applicable one. -/
theorem C5_registry_validation :
    ∀ w ∈ allVariants, ∀ q ∈ [false, true],
      (resnet18 (some w) true q [] = ⟨.error .invalidSelection, []⟩ ↔
        w.registry ≠ (if q then .rn18Quant else .rn18Float)) ∧
      ((resnet18 (some w) true q []).result.isOk = true ↔
        w.registry = (if q then .rn18Quant else .rn18Float)) ∧
      (resnet50 (some w) true q [] = ⟨.error .invalidSelection, []⟩ ↔
        w.registry ≠ (if q then .rn50Quant else .rn50Float)) ∧
      ((resnet50 (some w) true q []).result.isOk = true ↔
        w.registry = (if q then .rn50Quant else .rn50Float)) ∧
      (resnext101_32x8d (some w) true q [] = ⟨.error .invalidSelection, []⟩ ↔
        w.registry ≠ (if q then .rx32Quant else .rx32Float)) ∧
      ((resnext101_32x8d (some w) true q []).result.isOk = true ↔
        w.registry = (if q then .rx32Quant else .rx32Float)) ∧
      (resnext101_64x4d (some w) true q [] = ⟨.error .invalidSelection, []⟩ ↔
        w.registry ≠ (if q then .rx64Quant else .rx64Float)) ∧
      ((resnext101_64x4d (some w) true q []).result.isOk = true ↔
        w.registry = (if q then .rx64Quant else .rx64Float)) := by
  decide

/-- C5 witness: a floating-point key passed with `quantize=true` is
rejected with the invalid-selection outcome, and the matching quantized
key is accepted. -/
theorem C5_registry_validation_witness :
    (AnyWeights.rn18f .IMAGENET1K_V1) ∈ allVariants ∧
    true ∈ [false, true] ∧
    resnet18 (some (.rn18f .IMAGENET1K_V1)) true true [] =
      ⟨.error .invalidSelection, []⟩ ∧
    (resnet18 (some (.rn18q .IMAGENET1K_FBGEMM_V1)) true true []).result.isOk = true :=
  ⟨by decide, by decide,
    (C5_registry_validation (.rn18f .IMAGENET1K_V1) (by decide) true (by decide)).1.mpr
      (by decide),
    (C5_registry_validation (.rn18q .IMAGENET1K_FBGEMM_V1) (by decide) true
      (by decide)).2.1.mpr (by decide)⟩

/-- The backend identifier `_resnet` resolves from the (optional) weights
metadata, with the "fbgemm" fallback of `kwargs.pop` (source line 139),
for calls that supply no backend keyword. -/
def resolvedBackend (w : Option AnyWeights) : String :=
  match w with
  | some w => w.meta.backend.getD "fbgemm"
  | none => "fbgemm"

/-- A network whose class count disagrees with every variant's category
metadata, for exercising the load-time mismatch check. -/
def mismatchNet : Network :=
  { blockKind := .basic
    layers := [2, 2, 2, 2]
    numClasses := 7
    groups := 1
    widthPerGroup := 64
    mods := ⟨⟨.conv, .bn, .relu⟩, buildBlocks .basic [2, 2, 2, 2] 0⟩
    reluReplaced := true
    quantizedWith := none
    loadedWeights := none }

/-- C8: a factory run performs, in order: construction, activation
replacement, then — only when `quantize=true` — fusion followed by the
external quantization pipeline with the resolved backend, then — only
when weights were resolved — parameter loading, and the call succeeds
with the network returned after all steps; and loading a checkpoint whose
structure disagrees with the network's fails with the structural-mismatch
error instead of producing a network. -/
theorem C8_pipeline_order :
    (∀ (bk : BlockKind) (layers : List Nat) (w : Option AnyWeights) (q : Bool),
      (_resnet bk layers w true q []).events =
        [.constructed, .replacedRelu] ++
          (if q then [.fusedModel, .quantPipeline (resolvedBackend w)] else []) ++
          (match w with | some _ => [.loadedWeights] | none => [])) ∧
    (∀ (bk : BlockKind) (layers : List Nat) (w : Option AnyWeights) (q : Bool),
      ((_resnet bk layers w true q []).result.isOk = true)) ∧
    (∀ (net : Network) (w : AnyWeights), net.numClasses ≠ w.meta.categories.length →
      load_state_dict net w = .error .structuralMismatch) ∧
    (∀ (net : Network) (w : AnyWeights) (m : Network), load_state_dict net w = .ok m →
      net.numClasses = w.meta.categories.length) := by
  refine ⟨?_, ?_, ?_, ?_⟩
  · intro bk layers w q
    cases w with
    | none => cases q <;> rfl
    | some w => cases w <;> cases q <;> rfl
  · intro bk layers w q
    cases w with
    | none => cases q <;> rfl
    | some w => cases w <;> cases q <;> rfl
  · intro net w h
    unfold load_state_dict
    rw [if_neg h]
  · intro net w m h
    by_cases hc : net.numClasses = w.meta.categories.length
    · exact hc
    · rw [load_state_dict, if_neg hc] at h
      cases h

/-- C8 witness: the pipeline steps of a concrete quantized, weighted call
in order, and a concrete structure mismatch failing the load. -/
theorem C8_pipeline_order_witness :
    (_resnet .basic [2, 2, 2, 2] (some (.rn18q .IMAGENET1K_FBGEMM_V1)) true true []).events =
      [.constructed, .replacedRelu, .fusedModel, .quantPipeline "fbgemm", .loadedWeights] ∧
    mismatchNet.numClasses ≠ (AnyWeights.rn18q .IMAGENET1K_FBGEMM_V1).meta.categories.length ∧
    load_state_dict mismatchNet (.rn18q .IMAGENET1K_FBGEMM_V1) = .error .structuralMismatch ∧
    load_state_dict mismatchNet (.rn18q .IMAGENET1K_FBGEMM_V1) ≠
      .ok mismatchNet :=
  ⟨C8_pipeline_order.1 .basic [2, 2, 2, 2] (some (.rn18q .IMAGENET1K_FBGEMM_V1)) true,
    by decide,
    C8_pipeline_order.2.2.1 mismatchNet (.rn18q .IMAGENET1K_FBGEMM_V1) (by decide),
    by decide⟩

/-- Refusing a retry: the slot triple a three-slot fusion produces is not
fusable again, so a second pass leaves it alone. -/
lemma fuse3_fuse3 : ∀ c b r : Layer,
    fuse3 (fuse3 c b r).1 (fuse3 c b r).2.1 (fuse3 c b r).2.2 = fuse3 c b r := by
  decide

/-- The slot pair a two-slot fusion produces is not fusable again. -/
lemma fuse2_fuse2 : ∀ c b : Layer,
    fuse2 (fuse2 c b).1 (fuse2 c b).2 = fuse2 c b := by
  decide

/-- A second basic-block fuse after a first leaves the block unchanged. -/
lemma basicBlock_fuse_idem (isQat : Option Bool) (m : BasicBlockMods) :
    (QuantizableBasicBlock.fuse_model isQat
        (QuantizableBasicBlock.fuse_model isQat m).1).1 =
      (QuantizableBasicBlock.fuse_model isQat m).1 := by
  cases hm : m.downsample <;>
    simp [QuantizableBasicBlock.fuse_model, hm, fuse3_fuse3, fuse2_fuse2]

/-- A second bottleneck fuse after a first leaves the block unchanged. -/
lemma bottleneck_fuse_idem (isQat : Option Bool) (m : BottleneckMods) :
    (QuantizableBottleneck.fuse_model isQat
        (QuantizableBottleneck.fuse_model isQat m).1).1 =
      (QuantizableBottleneck.fuse_model isQat m).1 := by
  cases hm : m.downsample <;>
    simp [QuantizableBottleneck.fuse_model, hm, fuse3_fuse3, fuse2_fuse2]

/-- A second block-level fuse after a first leaves the state unchanged. -/
lemma blockState_fuse_idem (isQat : Option Bool) (s : BlockState) :
    ((BlockState.fuse_model isQat (BlockState.fuse_model isQat s).1).1) =
      (BlockState.fuse_model isQat s).1 := by
  cases s with
  | basic m => simpa [BlockState.fuse_model] using basicBlock_fuse_idem isQat m
  | bottleneck m => simpa [BlockState.fuse_model] using bottleneck_fuse_idem isQat m

/-- A second walk step on an already walked module changes nothing. -/
lemma fuseWalkStep_idem (isQat : Option Bool) (sm : SubModule) :
    (fuseWalkStep isQat (fuseWalkStep isQat sm).1).1 = (fuseWalkStep isQat sm).1 := by
  by_cases h : exactAdapterType sm.kind
  · simp [fuseWalkStep, h, blockState_fuse_idem]
  · simp [fuseWalkStep, h]

/-- A second walk over an already walked module list changes nothing. -/
lemma fuseWalk_map_idem (isQat : Option Bool) (l : List SubModule) :
    ((l.map (fuseWalkStep isQat)).map Prod.fst).map
        (fun sm => (fuseWalkStep isQat sm).1) =
      (l.map (fuseWalkStep isQat)).map Prod.fst := by
  induction l with
  | nil => rfl
  | cons a l ih =>
      simp only [List.map_cons, ih]
      exact congrArg (· :: _) (fuseWalkStep_idem isQat a)

/-- C4: applying `fuse_model` a second time, with the same flag, to a
network already fused once returns the network unchanged — in particular
the fused-unit count is unchanged — and, the operation being total, it
raises nothing. -/
theorem C4_fuse_model_idempotent (isQat : Option Bool) (n : NetState) :
    (QuantizableResNet.fuse_model isQat (QuantizableResNet.fuse_model isQat n).1).1 =
      (QuantizableResNet.fuse_model isQat n).1 ∧
    (QuantizableResNet.fuse_model isQat
        (QuantizableResNet.fuse_model isQat n).1).1.fusedCount =
      (QuantizableResNet.fuse_model isQat n).1.fusedCount := by
  have h : (QuantizableResNet.fuse_model isQat
      (QuantizableResNet.fuse_model isQat n).1).1 =
      (QuantizableResNet.fuse_model isQat n).1 := by
    simp only [QuantizableResNet.fuse_model]
    refine congrArg₂ NetState.mk ?_ ?_
    · simp [fuse3_fuse3]
    · simpa [List.map_map, Function.comp] using
        fuseWalk_map_idem isQat n.blocks
  exact ⟨h, by rw [h]⟩

/-- Every submission a basic-block fuse makes carries the flag it was
given. -/
lemma basic_events_isQat (isQat : Option Bool) (m : BasicBlockMods) :
    ∀ e ∈ (QuantizableBasicBlock.fuse_model isQat m).2, e.isQat = isQat := by
  cases hm : m.downsample <;> simp [QuantizableBasicBlock.fuse_model, hm]

/-- Every submission a bottleneck fuse makes carries the flag it was
given. -/
lemma bottleneck_events_isQat (isQat : Option Bool) (m : BottleneckMods) :
    ∀ e ∈ (QuantizableBottleneck.fuse_model isQat m).2, e.isQat = isQat := by
  cases hm : m.downsample <;> simp [QuantizableBottleneck.fuse_model, hm]

/-- Every submission a block-level fuse makes carries the flag it was
given. -/
lemma blockState_events_isQat (isQat : Option Bool) (s : BlockState) :
    ∀ e ∈ (BlockState.fuse_model isQat s).2, e.isQat = isQat := by
  cases s with
  | basic m => simpa [BlockState.fuse_model] using basic_events_isQat isQat m
  | bottleneck m => simpa [BlockState.fuse_model] using bottleneck_events_isQat isQat m

/-- The walked module list, projected to states: blocks of exactly an
adapter type are block-fused, all others are untouched. -/
lemma walk_fst_eq (isQat : Option Bool) (l : List SubModule) :
    (l.map (fuseWalkStep isQat)).map Prod.fst =
      l.map (fun sm =>
        if exactAdapterType sm.kind then
          (⟨sm.kind, (sm.state.fuse_model isQat).1⟩ : SubModule)
        else sm) := by
  induction l with
  | nil => rfl
  | cons a l ih =>
      simp only [List.map_cons, ih]
      by_cases ha : exactAdapterType a.kind = true
      · simp [fuseWalkStep, ha]
      · simp [fuseWalkStep, ha]

/-- The walked module list, projected to submissions: exactly the
block-fuse submissions of the modules of exactly an adapter type, in
traversal order. -/
lemma walk_snd_eq (isQat : Option Bool) (l : List SubModule) :
    ((l.map (fuseWalkStep isQat)).map Prod.snd).flatten =
      ((l.filter (fun sm => exactAdapterType sm.kind)).map
        (fun sm => (sm.state.fuse_model isQat).2)).flatten := by
  induction l with
  | nil => rfl
  | cons a l ih =>
      simp only [List.map_map] at ih
      by_cases ha : exactAdapterType a.kind = true
      · simp [fuseWalkStep, ha, List.filter_cons, ih]
      · simp [fuseWalkStep, ha, List.filter_cons, ih]

/-- C6: the network-level fuse first submits the network's own
{conv1, bn1, relu} triple, and then invokes the block-level fuse
operation, with the same flag, on exactly those contained modules whose
runtime type is exactly `QuantizableBottleneck` or exactly
`QuantizableBasicBlock` — modules of strict subclasses (or of any other
type) are left untouched — and every submission carries that same flag. -/
theorem C6_fuse_walk (isQat : Option Bool) (n : NetState) :
    (QuantizableResNet.fuse_model isQat n).2.head? =
      some ⟨"self", ["conv1", "bn1", "relu"], isQat⟩ ∧
    (QuantizableResNet.fuse_model isQat n).1.stem =
      ⟨(fuse3 n.stem.conv1 n.stem.bn1 n.stem.relu).1,
        (fuse3 n.stem.conv1 n.stem.bn1 n.stem.relu).2.1,
        (fuse3 n.stem.conv1 n.stem.bn1 n.stem.relu).2.2⟩ ∧
    (QuantizableResNet.fuse_model isQat n).1.blocks =
      n.blocks.map (fun sm =>
        if exactAdapterType sm.kind then
          (⟨sm.kind, (sm.state.fuse_model isQat).1⟩ : SubModule)
        else sm) ∧
    (QuantizableResNet.fuse_model isQat n).2.tail =
      ((n.blocks.filter (fun sm => exactAdapterType sm.kind)).map
        (fun sm => (sm.state.fuse_model isQat).2)).flatten ∧
    (∀ e ∈ (QuantizableResNet.fuse_model isQat n).2, e.isQat = isQat) := by
  refine ⟨rfl, rfl, ?_, ?_, ?_⟩
  · simpa [QuantizableResNet.fuse_model] using walk_fst_eq isQat n.blocks
  · simpa [QuantizableResNet.fuse_model] using walk_snd_eq isQat n.blocks
  · intro e he
    simp only [QuantizableResNet.fuse_model, List.mem_cons] at he
    rcases he with h | h
    · rw [h]
    · rw [walk_snd_eq isQat n.blocks] at h
      rw [List.mem_flatten] at h
      obtain ⟨l, hl, hel⟩ := h
      rw [List.mem_map] at hl
      obtain ⟨sm, hsm, rfl⟩ := hl
      exact blockState_events_isQat isQat sm.state e hel

/-- C6 witness: on a concrete network holding one exact-type adapter and
one strict-subclass module, the walk fuses exactly the former, the first
submission is the stem triple, and a concrete submission carries the
flag. -/
theorem C6_fuse_walk_witness :
    (QuantizableResNet.fuse_model (some true)
        ⟨⟨.conv, .bn, .relu⟩,
          [⟨.qBasicBlock, .basic ⟨.conv, .bn, .relu, .conv, .bn, none⟩⟩,
            ⟨.subclassOfQBasicBlock, .basic ⟨.conv, .bn, .relu, .conv, .bn, none⟩⟩]⟩).2.head? =
      some ⟨"self", ["conv1", "bn1", "relu"], some true⟩ ∧
    (⟨"self", ["conv1", "bn1", "relu"], some true⟩ : FuseEvent) ∈
      (QuantizableResNet.fuse_model (some true)
        ⟨⟨.conv, .bn, .relu⟩,
          [⟨.qBasicBlock, .basic ⟨.conv, .bn, .relu, .conv, .bn, none⟩⟩,
            ⟨.subclassOfQBasicBlock, .basic ⟨.conv, .bn, .relu, .conv, .bn, none⟩⟩]⟩).2 ∧
    FuseEvent.isQat ⟨"self", ["conv1", "bn1", "relu"], some true⟩ = some true :=
  ⟨(C6_fuse_walk (some true) _).1, by decide,
    (C6_fuse_walk (some true)
        ⟨⟨.conv, .bn, .relu⟩,
          [⟨.qBasicBlock, .basic ⟨.conv, .bn, .relu, .conv, .bn, none⟩⟩,
            ⟨.subclassOfQBasicBlock, .basic ⟨.conv, .bn, .relu, .conv, .bn, none⟩⟩]⟩).2.2.2.2
      ⟨"self", ["conv1", "bn1", "relu"], some true⟩ (by decide)⟩

end QResNet
